import Mathlib

/-!
Verification of the auth-callout protocol handler (`callout/src/mod.ts`,
class `TokenCallout`) of the orbit.js repository.

The TypeScript code is shallowly embedded as pure Lean functions:
  * `Bytes` (`Uint8Array` payloads) are lists of characters; the
    `StringCodec` used by the handler becomes the pair
    `String.mk` / `String.data`.
  * External collaborators (the `@nats-io/jwt` and nkeys crypto libraries,
    declared out of scope by the design document) are passed in as an `Env`
    record of functions: `jwtDecode` models `jwt.decode` (throwing becomes
    `Except.error` carrying the thrown message), `checkServerKey` models
    `jwt.checkKey(k, ["N"])`, `openWith` models
    `this.encryptionKey.open(data, serverKey)`.
  * `process` returns a `ProcOutcome`: the resolved/rejected result, a
    `Trace` recording whether `open`, `decode` and the `Authorizer` were
    invoked (and with which requests), and the handler state after the call.
  * Rejections are the inductive `CalloutError`, one constructor per
    `Promise.reject` site of the source; the service wiring's catch handler
    (`authorizationService`, lines 82-89) becomes `serviceRespondError`.
`console.log` calls are observability only and are not modelled.
-/

namespace Callout

/-- Byte payloads (`Uint8Array`), modelled as lists of characters. The only
byte-level operation the handler performs is comparing the first four bytes
with the ASCII string "eyJ0". -/
abbrev Bytes := List Char

/-- Decidable equality for `Except`, used by the concrete witnesses. -/
instance exceptDecidableEq {e a : Type} [DecidableEq e] [DecidableEq a] :
    DecidableEq (Except e a)
  | Except.error x, Except.error y =>
    if h : x = y then .isTrue (by rw [h]) else .isFalse (by simp [h])
  | Except.error _, Except.ok _ => .isFalse (by simp)
  | Except.ok _, Except.error _ => .isFalse (by simp)
  | Except.ok x, Except.ok y =>
    if h : x = y then .isTrue (by rw [h]) else .isFalse (by simp [h])

/-- `const NatsServerXkeyHeader = "Nats-Server-Xkey"` (mod.ts line 41). -/
def NatsServerXkeyHeader : String := "Nats-Server-Xkey"

/-- `const ExpectedAudience = "nats-authorization-request"` (mod.ts line 42). -/
def ExpectedAudience : String := "nats-authorization-request"

/-- The `server_id` field of a decoded authorization request: the server's
identity and, when encryption is active, its encryption public key (`xkey`,
which may be absent: `undefined` becomes `none`). -/
structure ServerId where
  id : String
  xkey : Option String
deriving Repr, DecidableEq

/-- The decoded `jwt.AuthorizationRequest` payload, restricted to the fields
the handler reads: `server_id` and `user_nkey`. -/
structure AuthorizationRequest where
  server_id : ServerId
  user_nkey : String
deriving Repr, DecidableEq

/-- A `jwt.AuthorizationResponse` decision produced by the `Authorizer`:
either an issued credential (`jwt`) or a rejection reason (`error`); the
TypeScript type leaves both fields optional. -/
structure AuthorizationResponse where
  jwt : Option String := none
  error : Option String := none
deriving Repr, DecidableEq

/-- The claims envelope returned by `jwt.decode`: the audience (`aud`, which
arbitrary input may leave absent) and the embedded request (`nats`, absent
when the decoded document carries no request object). -/
structure ClaimsData where
  aud : Option String
  nats : Option AuthorizationRequest
deriving Repr, DecidableEq

/-- Modelled from the spec: the outcome of the external
`jwt.encodeAuthorizationResponse(user_nkey, server_id, signer, decision, {})`
call — a signed claims document "addressing the response to the requesting
principal's public identity and the originating server's identity, embedding
the Authorizer's decision as its payload", signed with the local signing
identity. The collaborator lives in the out-of-scope `@nats-io/jwt` library,
so its output is modelled transparently as the record of its arguments. -/
structure ResponseClaims where
  user_nkey : String
  server_id : String
  signer : String
  decision : AuthorizationResponse
deriving Repr, DecidableEq

/-- Modelled from the spec: construction of the outbound signed document. -/
def encodeAuthorizationResponse (user server signer : String)
    (decision : AuthorizationResponse) : ResponseClaims :=
  { user_nkey := user, server_id := server, signer := signer,
    decision := decision }

/-- The raw reply bytes returned by `process`: either the signed document
itself (`this.sc.encode(r)`, line 182) or the signed document sealed for the
peer encryption identity (`this.encryptionKey.seal(rd, serverKey)`,
line 180). -/
inductive Reply where
  | plain (r : ResponseClaims)
  | sealedFor (r : ResponseClaims) (recipient : String)
deriving Repr, DecidableEq

/-- The rejection reasons of `process`/`decode`, one constructor per
`Promise.reject` site. `badRequest` is the `ServiceError(500, "bad request")`
of `decode`; the other constructors are plain `Error`s. `decodeFailed`,
`keyCheckFailed` and `authorizerFault` carry the message thrown by
`jwt.decode`, `jwt.checkKey` or the `Authorizer` respectively. -/
inductive CalloutError where
  | configNeedsEncryption
  | configNoEncryption
  | decryptFailed
  | decodeFailed (msg : String)
  | badRequest
  | keyCheckFailed (msg : String)
  | serverKeyMismatch
  | authorizerFault (msg : String)
deriving Repr, DecidableEq

/-- The external collaborators used by one `process` call. -/
structure Env where
  /-- `jwt.decode<jwt.AuthorizationRequest>(data)`; `Except.error` is the
  thrown error's message. -/
  jwtDecode : String → Except String ClaimsData
  /-- `jwt.checkKey(k, ["N"])`: succeeds exactly when `k` classifies as a
  server ("N") key; `Except.error` is the thrown error's message. -/
  checkServerKey : String → Except String Unit
  /-- `this.encryptionKey.open(data, serverKey)`: `none` models the `null`
  return on decryption failure. -/
  openWith : Bytes → String → Option Bytes

/-- The `Codec<string>` pair; the constructor installs `StringCodec()`. -/
structure Codec where
  decode : Bytes → String
  encode : String → Bytes

/-- `StringCodec()` from nats-core: UTF-8 bytes to string and back. -/
def StringCodec : Codec :=
  { decode := fun l => String.mk l, encode := fun s => s.data }

/-- The `Authorizer` capability: `authorize(req)` either resolves with a
(partial) `AuthorizationResponse` or throws (`Except.error` carries the
thrown message). -/
def Authorizer := AuthorizationRequest → Except String AuthorizationResponse

/-- The handler state: the fields of class `TokenCallout` (mod.ts
lines 94-118). `encryptionKey` holds the encryption key pair when one was
supplied at construction (its private half lives behind `Env.openWith`);
the constructor sets `sc := StringCodec`. -/
structure TokenCallout where
  authorizer : Authorizer
  authorizationResponseSigner : String
  encryptionKey : Option String
  sc : Codec

/-- Which collaborators a `process` call invoked: whether
`this.encryptionKey.open` ran, whether `this.decode` (and hence
`jwt.decode`) ran, and the requests passed to `authorizer.authorize`. -/
structure Trace where
  openCalled : Bool
  decodeCalled : Bool
  authCalls : List AuthorizationRequest
deriving Repr, DecidableEq

/-- The full outcome of a `process` call: its resolved value or rejection,
the invocation trace, and the handler state after the call. -/
structure ProcOutcome where
  result : Except CalloutError Reply
  trace : Trace
  post : TokenCallout

/-- Lines 126-131 of `process`:
`let isEncrypted = false; if (data.length > 4) { const s =
this.sc.decode(data.subarray(0, 4)); isEncrypted = s !== "eyJ0"; }`. -/
def classifyEncrypted (sc : Codec) (data : Bytes) : Bool :=
  if 4 < data.length then sc.decode (data.take 4) != "eyJ0" else false

/-- `requestHeaders?.get(NatsServerXkeyHeader) || ""` (line 149): absent
headers, or a header map without the key (nats-core's `MsgHdrs.get` returns
`""` for a missing key), yield the empty string. -/
def headerGet (h : Option (String → String)) (k : String) : String :=
  match h with
  | none => ""
  | some f => f k

/-- `TokenCallout.decode` (mod.ts lines 185-205): run `jwt.decode`, require
the audience to equal `ExpectedAudience`, require the embedded request
object to be present, and require `server_id.id` to classify as a server
("N") key; the two envelope checks reject with `ServiceError(500, "bad
request")`, everything thrown inside the `try` is re-rejected as is. -/
def TokenCallout.decode (env : Env) (data : String) :
    Except CalloutError AuthorizationRequest :=
  match env.jwtDecode data with
  | .error msg => .error (.decodeFailed msg)
  | .ok token =>
    if token.aud ≠ some ExpectedAudience then
      .error .badRequest
    else
      match token.nats with
      | none => .error .badRequest
      | some ar =>
        match env.checkServerKey ar.server_id.id with
        | .error msg => .error (.keyCheckFailed msg)
        | .ok _ => .ok ar

/-- `TokenCallout.process` (mod.ts lines 120-183), straight-line
translation: classify the payload, reject configuration mismatches, decrypt
when the handler holds an encryption key, decode and sanity-check the
request, cross-check the request's `server_id.xkey` against the header key,
delegate to the authorizer, and build the (optionally sealed) signed
response. -/
def TokenCallout.process (tc : TokenCallout) (env : Env) (data : Bytes)
    (requestHeaders : Option (String → String)) : ProcOutcome :=
  let isEncrypted := classifyEncrypted tc.sc data
  if tc.encryptionKey.isSome && !isEncrypted then
    ⟨.error .configNeedsEncryption, ⟨false, false, []⟩, tc⟩
  else if !tc.encryptionKey.isSome && isEncrypted then
    ⟨.error .configNoEncryption, ⟨false, false, []⟩, tc⟩
  else
    let serverKey :=
      if tc.encryptionKey.isSome then headerGet requestHeaders NatsServerXkeyHeader
      else ""
    let opened : Except CalloutError Bytes :=
      if tc.encryptionKey.isSome then
        match env.openWith data serverKey with
        | none => .error .decryptFailed
        | some dd => .ok dd
      else .ok data
    match opened with
    | .error e => ⟨.error e, ⟨tc.encryptionKey.isSome, false, []⟩, tc⟩
    | .ok plaindata =>
      match TokenCallout.decode env (tc.sc.decode plaindata) with
      | .error e => ⟨.error e, ⟨tc.encryptionKey.isSome, true, []⟩, tc⟩
      | .ok req =>
        if tc.encryptionKey.isSome && req.server_id.xkey != some serverKey then
          ⟨.error .serverKeyMismatch, ⟨tc.encryptionKey.isSome, true, []⟩, tc⟩
        else
          match tc.authorizer req with
          | .error msg =>
            ⟨.error (.authorizerFault msg),
              ⟨tc.encryptionKey.isSome, true, [req]⟩, tc⟩
          | .ok cr =>
            let r := encodeAuthorizationResponse req.user_nkey req.server_id.id
              tc.authorizationResponseSigner cr
            if tc.encryptionKey.isSome then
              ⟨.ok (.sealedFor r serverKey),
                ⟨true, true, [req]⟩, tc⟩
            else
              ⟨.ok (.plain r), ⟨false, true, [req]⟩, tc⟩

/-- The service wiring's catch handler (`authorizationService`, mod.ts
lines 82-89): a `ServiceError` keeps its own code and message, any other
rejection is surfaced with code 400 and its message; either way the reply is
`m.respondError(code, "error processing request", message)`. -/
def errCode : CalloutError → Nat
  | .badRequest => 500
  | _ => 400

/-- The `message` of each rejection, as constructed at its reject site. -/
def errMessage : CalloutError → String
  | .configNeedsEncryption =>
    "configuration mismatch - service requires encryption but server doesn't"
  | .configNoEncryption =>
    "configuration mismatch - service does not require encryption but server does"
  | .decryptFailed => "failed to decrypt message"
  | .decodeFailed m => m
  | .badRequest => "bad request"
  | .keyCheckFailed m => m
  | .serverKeyMismatch => "server key in request didn't match server key in headers"
  | .authorizerFault m => m

/-- The transport-level error reply the service wiring sends for a rejected
`process` call: `(code, "error processing request", message)`. -/
def serviceRespondError (e : CalloutError) : Nat × String × String :=
  (errCode e, "error processing request", errMessage e)

/-! Concrete fixtures, used only to instantiate the witness and
counterexample theorems. -/

/-- A well-formed `server_id` whose `xkey` matches the fixture header. -/
def sidOk : ServerId := { id := "NSERVER", xkey := some "XPEER" }

/-- A well-formed decoded request. -/
def arOk : AuthorizationRequest := { server_id := sidOk, user_nkey := "UUSER" }

/-- A claims envelope with the expected audience and `arOk` embedded. -/
def tokenOk : ClaimsData := { aud := some ExpectedAudience, nats := some arOk }

/-- An accepting authorizer decision. -/
def crOk : AuthorizationResponse := { jwt := some "credential" }

/-- A rejecting (but non-throwing) authorizer decision. -/
def crDenied : AuthorizationResponse := { error := some "denied" }

/-- A collaborator environment whose decoder always yields `tokenOk`, whose
key classifier accepts exactly "NSERVER", and whose `open` succeeds for any
non-empty sender identity (and fails for the empty one, as the real curve
primitive does for an invalid key). -/
def envOk : Env :=
  { jwtDecode := fun _ => .ok tokenOk
    checkServerKey := fun k => if k = "NSERVER" then .ok () else .error "not a server key"
    openWith := fun d k => if k = "" then none else some d }

/-- A plaintext-mode handler (no encryption key) with an accepting
authorizer. -/
def tcPlain : TokenCallout :=
  { authorizer := fun _ => .ok crOk
    authorizationResponseSigner := "ASIGNER"
    encryptionKey := none
    sc := StringCodec }

/-- The same handler constructed with an encryption key. -/
def tcEnc : TokenCallout := { tcPlain with encryptionKey := some "XLOCAL" }

/-- A payload carrying the fixed plaintext signed-document prefix. -/
def dataPlain : Bytes := "eyJ0abc".data

/-- A payload without the plaintext prefix (classified as encrypted). -/
def dataEnc : Bytes := "ciphertext".data

/-- Transport headers carrying the peer encryption identity "XPEER". -/
def hdrsEnc : Option (String → String) :=
  some fun k => if k = NatsServerXkeyHeader then "XPEER" else ""

/-- Transport headers carrying a peer identity different from the `xkey`
embedded in the fixture request. -/
def hdrsOther : Option (String → String) :=
  some fun k => if k = NatsServerXkeyHeader then "XOTHER" else ""

/-- An environment whose `open` primitive always fails. -/
def envNoOpen : Env := { envOk with openWith := fun _ _ => none }

/-- A handler whose authorizer always throws. -/
def tcThrow : TokenCallout := { tcPlain with authorizer := fun _ => .error "boom" }

/-- A handler whose authorizer always returns a policy rejection. -/
def tcDeny : TokenCallout := { tcPlain with authorizer := fun _ => .ok crDenied }

/-- An environment whose `jwt.decode` always throws. -/
def envBadDecode : Env := { envOk with jwtDecode := fun _ => .error "boom" }

/-- A decoded request whose `user_nkey` is not remotely key-shaped. -/
def arOdd : AuthorizationRequest :=
  { server_id := sidOk, user_nkey := "this is *** not an nkey" }

/-- A claims envelope embedding the odd request. -/
def tokenOdd : ClaimsData := { aud := some ExpectedAudience, nats := some arOdd }

/-- An environment decoding every payload to a request with the odd
`user_nkey`. -/
def envOdd : Env := { envOk with jwtDecode := fun _ => .ok tokenOdd }

/-- "Begins with the four bytes eyJ0": the first four bytes of the payload
are exactly those of the string "eyJ0" (an input shorter than four bytes
does not begin with them). -/
def beginsWithEyJ0 (data : Bytes) : Bool := data.take 4 == "eyJ0".data

/-! Theorems. -/

/-- Normal form of `process` for a handler constructed with an encryption
key. -/
theorem process_some_eq (tc : TokenCallout) (env : Env) (data : Bytes)
    (hdrs : Option (String → String)) (k : String)
    (h : tc.encryptionKey = some k) :
    tc.process env data hdrs =
      if classifyEncrypted tc.sc data then
        match env.openWith data (headerGet hdrs NatsServerXkeyHeader) with
        | none => ⟨.error .decryptFailed, ⟨true, false, []⟩, tc⟩
        | some dd =>
          match TokenCallout.decode env (tc.sc.decode dd) with
          | .error e => ⟨.error e, ⟨true, true, []⟩, tc⟩
          | .ok req =>
            if req.server_id.xkey != some (headerGet hdrs NatsServerXkeyHeader) then
              ⟨.error .serverKeyMismatch, ⟨true, true, []⟩, tc⟩
            else
              match tc.authorizer req with
              | .error msg =>
                ⟨.error (.authorizerFault msg), ⟨true, true, [req]⟩, tc⟩
              | .ok cr =>
                ⟨.ok (.sealedFor (encodeAuthorizationResponse req.user_nkey
                    req.server_id.id tc.authorizationResponseSigner cr)
                    (headerGet hdrs NatsServerXkeyHeader)),
                  ⟨true, true, [req]⟩, tc⟩
      else ⟨.error .configNeedsEncryption, ⟨false, false, []⟩, tc⟩ := by
  unfold TokenCallout.process
  rw [h]
  simp only [Option.isSome_some, Bool.true_and, Bool.not_true, Bool.false_and,
    Bool.not_eq_true']
  cases hc : classifyEncrypted tc.sc data with
  | false => simp
  | true =>
    simp only [if_true]
    cases ho : env.openWith data (headerGet hdrs NatsServerXkeyHeader) with
    | none => rfl
    | some dd => rfl

/-- Normal form of `process` for a handler constructed without an
encryption key. -/
theorem process_none_eq (tc : TokenCallout) (env : Env) (data : Bytes)
    (hdrs : Option (String → String)) (h : tc.encryptionKey = none) :
    tc.process env data hdrs =
      if classifyEncrypted tc.sc data then
        ⟨.error .configNoEncryption, ⟨false, false, []⟩, tc⟩
      else
        match TokenCallout.decode env (tc.sc.decode data) with
        | .error e => ⟨.error e, ⟨false, true, []⟩, tc⟩
        | .ok req =>
          match tc.authorizer req with
          | .error msg =>
            ⟨.error (.authorizerFault msg), ⟨false, true, [req]⟩, tc⟩
          | .ok cr =>
            ⟨.ok (.plain (encodeAuthorizationResponse req.user_nkey
                req.server_id.id tc.authorizationResponseSigner cr)),
              ⟨false, true, [req]⟩, tc⟩ := by
  unfold TokenCallout.process
  rw [h]
  simp only [Option.isSome_none, Bool.false_and, Bool.not_false, Bool.true_and,
    Bool.and_eq_true]
  cases hc : classifyEncrypted tc.sc data with
  | false => simp
  | true => simp

/-- Inversion for `TokenCallout.decode`: a successfully decoded request went
through every sanity check of lines 185-205. -/
theorem decode_ok_inversion (env : Env) (s : String)
    (req : AuthorizationRequest) (h : TokenCallout.decode env s = .ok req) :
    ∃ token, env.jwtDecode s = .ok token ∧
      token.aud = some ExpectedAudience ∧ token.nats = some req ∧
      env.checkServerKey req.server_id.id = .ok () := by
  unfold TokenCallout.decode at h
  cases hjd : env.jwtDecode s with
  | error m => rw [hjd] at h; exact absurd h (by simp)
  | ok token =>
    rw [hjd] at h
    dsimp only at h
    by_cases ha : token.aud = some ExpectedAudience
    · rw [if_neg (by simpa using ha)] at h
      cases hn : token.nats with
      | none => rw [hn] at h; exact absurd h (by simp)
      | some ar =>
        rw [hn] at h
        dsimp only at h
        cases hc : env.checkServerKey ar.server_id.id with
        | error m => rw [hc] at h; exact absurd h (by simp)
        | ok u =>
          rw [hc] at h
          cases u
          simp only [Except.ok.injEq] at h
          subst h
          exact ⟨token, rfl, ha, hn, hc⟩
    · rw [if_pos (by simpa using ha)] at h
      exact absurd h (by simp)

/-- C9: Every call to `TokenCallout.process`, whether it resolves or
rejects, leaves the handler's state unchanged: the `authorizer`,
`authorizationResponseSigner`, `encryptionKey` and `sc` fields after the
call equal their construction-time values; the call's only outcome is its
single result (the `console.log` observability calls are not modelled). -/
theorem process_leaves_state_unchanged (tc : TokenCallout) (env : Env)
    (data : Bytes) (hdrs : Option (String → String)) :
    (tc.process env data hdrs).post = tc := by
  unfold TokenCallout.process
  dsimp only
  repeat first | rfl | split

/-- C1: if the handler was constructed with an encryption key and the
payload is classified as not encrypted, or constructed without one and the
payload is classified as encrypted, `process` rejects with the matching
configuration-mismatch error, `open` and `decode` are never invoked, and
the authorizer observes zero calls. -/
theorem process_config_mismatch_rejects (tc : TokenCallout) (env : Env)
    (data : Bytes) (hdrs : Option (String → String)) :
    (tc.encryptionKey.isSome = true → classifyEncrypted tc.sc data = false →
      tc.process env data hdrs =
        ⟨.error .configNeedsEncryption, ⟨false, false, []⟩, tc⟩) ∧
    (tc.encryptionKey = none → classifyEncrypted tc.sc data = true →
      tc.process env data hdrs =
        ⟨.error .configNoEncryption, ⟨false, false, []⟩, tc⟩) := by
  constructor
  · intro h1 h2
    unfold TokenCallout.process
    simp [h1, h2]
  · intro h1 h2
    unfold TokenCallout.process
    simp [h1, h2]

/-- Witness for C1: both mismatch directions at concrete inputs. -/
theorem process_config_mismatch_rejects_witness :
    (tcEnc.encryptionKey.isSome = true ∧ classifyEncrypted tcEnc.sc dataPlain = false ∧
      tcEnc.process envOk dataPlain none =
        ⟨.error .configNeedsEncryption, ⟨false, false, []⟩, tcEnc⟩) ∧
    (tcPlain.encryptionKey = none ∧ classifyEncrypted tcPlain.sc dataEnc = true ∧
      tcPlain.process envOk dataEnc none =
        ⟨.error .configNoEncryption, ⟨false, false, []⟩, tcPlain⟩) :=
  ⟨⟨rfl, by decide,
    (process_config_mismatch_rejects tcEnc envOk dataPlain none).1 rfl (by decide)⟩,
   ⟨rfl, by decide,
    (process_config_mismatch_rejects tcPlain envOk dataEnc none).2 rfl (by decide)⟩⟩

/-- C2: the authorizer is invoked only on requests that passed every check
of `decode` — the claims document's audience equals
"nats-authorization-request", the embedded request object is present, and
`server_id.id` classifies as a server ("N") key; and whenever the
authorizer observed zero calls, `process` has rejected (stated as: a
resolved `process` call has a non-empty authorizer trace). -/
theorem process_authorizer_only_after_checks (tc : TokenCallout) (env : Env)
    (data : Bytes) (hdrs : Option (String → String)) :
    (∀ req ∈ (tc.process env data hdrs).trace.authCalls,
      ∃ s token, env.jwtDecode s = .ok token ∧
        token.aud = some ExpectedAudience ∧ token.nats = some req ∧
        env.checkServerKey req.server_id.id = .ok ()) ∧
    ((tc.process env data hdrs).result.isOk = true →
      (tc.process env data hdrs).trace.authCalls ≠ []) := by
  cases henc : tc.encryptionKey with
  | none =>
    rw [process_none_eq tc env data hdrs henc]
    split
    · exact ⟨by simp, by simp [Except.isOk, Except.toBool]⟩
    · split
      · exact ⟨by simp, by simp [Except.isOk, Except.toBool]⟩
      · rename_i req0 hdec
        obtain ⟨token, h1, h2, h3, h4⟩ :=
          decode_ok_inversion env (tc.sc.decode data) req0 hdec
        split
        · refine ⟨?_, by simp [Except.isOk, Except.toBool]⟩
          intro req hreq
          simp at hreq
          subst hreq
          exact ⟨_, token, h1, h2, h3, h4⟩
        · refine ⟨?_, by simp [Except.isOk, Except.toBool]⟩
          intro req hreq
          simp at hreq
          subst hreq
          exact ⟨_, token, h1, h2, h3, h4⟩
  | some k =>
    rw [process_some_eq tc env data hdrs k henc]
    split
    · split
      · exact ⟨by simp, by simp [Except.isOk, Except.toBool]⟩
      · rename_i dd ho
        split
        · exact ⟨by simp, by simp [Except.isOk, Except.toBool]⟩
        · rename_i req0 hdec
          obtain ⟨token, h1, h2, h3, h4⟩ :=
            decode_ok_inversion env (tc.sc.decode dd) req0 hdec
          split
          · exact ⟨by simp, by simp [Except.isOk, Except.toBool]⟩
          · split
            · refine ⟨?_, by simp [Except.isOk, Except.toBool]⟩
              intro req hreq
              simp at hreq
              subst hreq
              exact ⟨_, token, h1, h2, h3, h4⟩
            · refine ⟨?_, by simp [Except.isOk, Except.toBool]⟩
              intro req hreq
              simp at hreq
              subst hreq
              exact ⟨_, token, h1, h2, h3, h4⟩
    · exact ⟨by simp, by simp [Except.isOk, Except.toBool]⟩

/-- Witness for C2: on a concrete fully-valid run the authorizer is called
with `arOk`, and the checks hold for it. -/
theorem process_authorizer_only_after_checks_witness :
    arOk ∈ (tcPlain.process envOk dataPlain none).trace.authCalls ∧
    (∃ s token, envOk.jwtDecode s = .ok token ∧
      token.aud = some ExpectedAudience ∧ token.nats = some arOk ∧
      envOk.checkServerKey arOk.server_id.id = .ok ()) :=
  ⟨by decide,
   (process_authorizer_only_after_checks tcPlain envOk dataPlain none).1
     arOk (by decide)⟩

/-- Counterexample to C3: the one-byte payload "x" is non-empty and does
not begin with the four bytes "eyJ0", yet the handler classifies it as NOT
encrypted — so "classified as encrypted exactly when it does not begin with
eyJ0, and a non-empty input suffices for the classification" fails. -/
theorem classifyEncrypted_counterexample :
    (['x'] : Bytes) ≠ [] ∧ beginsWithEyJ0 ['x'] = false ∧
    classifyEncrypted StringCodec ['x'] = false := by decide

/-- C3 (amended): a payload is classified as encrypted exactly when it is
longer than four bytes and does not begin with the four bytes "eyJ0";
payloads of at most four bytes are never classified as encrypted — the
prefix comparison runs only for payloads longer than four bytes, not for
every non-empty payload. -/
theorem classifyEncrypted_iff (data : Bytes) :
    classifyEncrypted StringCodec data = true ↔
      4 < data.length ∧ beginsWithEyJ0 data = false := by
  unfold classifyEncrypted StringCodec beginsWithEyJ0
  dsimp only
  split
  · rename_i h
    simp [h, bne_iff_ne, String.ext_iff, beq_eq_false_iff_ne]
  · rename_i h
    simp [h]

/-- Case analysis on `TokenCallout.decode` rejections: every rejection is
the bad-request `ServiceError`, a `jwt.decode` throw, or a `jwt.checkKey`
throw — in particular never the server-key-mismatch error. -/
theorem decode_error_cases (env : Env) (s : String) (e : CalloutError)
    (h : TokenCallout.decode env s = .error e) :
    e = .badRequest ∨ (∃ m, e = .decodeFailed m) ∨ ∃ m, e = .keyCheckFailed m := by
  unfold TokenCallout.decode at h
  cases hjd : env.jwtDecode s with
  | error m =>
    rw [hjd] at h
    dsimp only at h
    exact Or.inr (Or.inl ⟨m, by simpa using h.symm⟩)
  | ok token =>
    rw [hjd] at h
    dsimp only at h
    by_cases ha : token.aud = some ExpectedAudience
    · rw [if_neg (by simpa using ha)] at h
      cases hn : token.nats with
      | none =>
        rw [hn] at h
        dsimp only at h
        exact Or.inl (by simpa using h.symm)
      | some ar =>
        rw [hn] at h
        dsimp only at h
        cases hc : env.checkServerKey ar.server_id.id with
        | error m =>
          rw [hc] at h
          exact Or.inr (Or.inr ⟨m, by simpa using h.symm⟩)
        | ok u =>
          rw [hc] at h
          cases u
          exact absurd h (by simp)
    · rw [if_pos (by simpa using ha)] at h
      exact Or.inl (by simpa using h.symm)

/-- C4: a request passing all verification checks resolves with the signed
authorization-response document addressed to the request's `user_nkey` and
`server_id.id`, signed with the construction-time signing key, embedding
the authorizer's decision; with an encryption key the signed document is
sealed for the peer identity from the `Nats-Server-Xkey` header (the one
used for decryption), otherwise the signed document is returned
unmodified. -/
theorem process_success_response (tc : TokenCallout) (env : Env)
    (data : Bytes) (hdrs : Option (String → String)) :
    (∀ req cr, tc.encryptionKey = none →
      classifyEncrypted tc.sc data = false →
      TokenCallout.decode env (tc.sc.decode data) = .ok req →
      tc.authorizer req = .ok cr →
      (tc.process env data hdrs).result =
        .ok (.plain (encodeAuthorizationResponse req.user_nkey
          req.server_id.id tc.authorizationResponseSigner cr))) ∧
    (∀ k dd req cr, tc.encryptionKey = some k →
      classifyEncrypted tc.sc data = true →
      env.openWith data (headerGet hdrs NatsServerXkeyHeader) = some dd →
      TokenCallout.decode env (tc.sc.decode dd) = .ok req →
      req.server_id.xkey = some (headerGet hdrs NatsServerXkeyHeader) →
      tc.authorizer req = .ok cr →
      (tc.process env data hdrs).result =
        .ok (.sealedFor (encodeAuthorizationResponse req.user_nkey
          req.server_id.id tc.authorizationResponseSigner cr)
          (headerGet hdrs NatsServerXkeyHeader))) := by
  constructor
  · intro req cr henc hclass hdec hauth
    simp [process_none_eq tc env data hdrs henc, hclass, hdec, hauth]
  · intro k dd req cr henc hclass hopen hdec hx hauth
    simp [process_some_eq tc env data hdrs k henc, hclass, hopen, hdec, hx, hauth]

/-- Witness for C4: a full plaintext run and a full encrypted run. -/
theorem process_success_response_witness :
    (tcPlain.encryptionKey = none ∧
      (tcPlain.process envOk dataPlain none).result =
        .ok (.plain (encodeAuthorizationResponse arOk.user_nkey
          arOk.server_id.id tcPlain.authorizationResponseSigner crOk))) ∧
    (tcEnc.encryptionKey = some "XLOCAL" ∧
      (tcEnc.process envOk dataEnc hdrsEnc).result =
        .ok (.sealedFor (encodeAuthorizationResponse arOk.user_nkey
          arOk.server_id.id tcEnc.authorizationResponseSigner crOk)
          (headerGet hdrsEnc NatsServerXkeyHeader))) :=
  ⟨⟨rfl, (process_success_response tcPlain envOk dataPlain none).1 arOk crOk
      rfl (by decide) (by decide) rfl⟩,
   ⟨rfl, (process_success_response tcEnc envOk dataEnc hdrsEnc).2 "XLOCAL"
      dataEnc arOk crOk rfl (by decide) (by decide) (by decide) (by decide) rfl⟩⟩

/-- C5: in encrypted mode, after successful decryption and decode, a
request whose `server_id.xkey` differs from the header-supplied peer
identity is rejected with the server-key-mismatch error and the authorizer
is never invoked; in plaintext mode that comparison is never performed
(stated observationally: `process` never produces that rejection). -/
theorem process_xkey_crosscheck (tc : TokenCallout) (env : Env)
    (data : Bytes) (hdrs : Option (String → String)) :
    (∀ k dd req, tc.encryptionKey = some k →
      classifyEncrypted tc.sc data = true →
      env.openWith data (headerGet hdrs NatsServerXkeyHeader) = some dd →
      TokenCallout.decode env (tc.sc.decode dd) = .ok req →
      req.server_id.xkey ≠ some (headerGet hdrs NatsServerXkeyHeader) →
      tc.process env data hdrs =
        ⟨.error .serverKeyMismatch, ⟨true, true, []⟩, tc⟩) ∧
    (tc.encryptionKey = none →
      (tc.process env data hdrs).result ≠ .error .serverKeyMismatch) := by
  constructor
  · intro k dd req henc hclass hopen hdec hx
    simp [process_some_eq tc env data hdrs k henc, hclass, hopen, hdec, hx]
  · intro henc
    rw [process_none_eq tc env data hdrs henc]
    split
    · simp
    · split
      · rename_i e hdec
        rcases decode_error_cases env (tc.sc.decode data) e hdec with
          h | ⟨m, h⟩ | ⟨m, h⟩ <;> simp [h]
      · split
        · simp
        · simp

/-- Witness for C5: a concrete mismatching encrypted run and a concrete
plaintext run. -/
theorem process_xkey_crosscheck_witness :
    (tcEnc.process envOk dataEnc hdrsOther =
      ⟨.error .serverKeyMismatch, ⟨true, true, []⟩, tcEnc⟩) ∧
    (tcPlain.process envOk dataPlain none).result ≠ .error .serverKeyMismatch :=
  ⟨(process_xkey_crosscheck tcEnc envOk dataEnc hdrsOther).1 "XLOCAL" dataEnc
      arOk rfl (by decide) (by decide) (by decide) (by decide),
   (process_xkey_crosscheck tcPlain envOk dataPlain none).2 rfl⟩

/-- C6: with an encryption key and an encrypted-classified payload,
`process` fails when the `Nats-Server-Xkey` header is absent (the code
substitutes the empty peer identity, against which the decryption
primitive cannot open — stated as the hypothesis `openWith data "" = none`,
true of the real curve primitive for an invalid key), and fails with the
decryption error — decode never attempted, authorizer never invoked —
whenever opening the payload against the header-supplied peer identity
fails. -/
theorem process_decrypt_failure (tc : TokenCallout) (env : Env)
    (data : Bytes) (hdrs : Option (String → String)) :
    (∀ k, tc.encryptionKey = some k → classifyEncrypted tc.sc data = true →
      headerGet hdrs NatsServerXkeyHeader = "" →
      env.openWith data "" = none →
      tc.process env data hdrs =
        ⟨.error .decryptFailed, ⟨true, false, []⟩, tc⟩) ∧
    (∀ k, tc.encryptionKey = some k → classifyEncrypted tc.sc data = true →
      env.openWith data (headerGet hdrs NatsServerXkeyHeader) = none →
      tc.process env data hdrs =
        ⟨.error .decryptFailed, ⟨true, false, []⟩, tc⟩) := by
  constructor
  · intro k henc hclass hhdr hopen
    simp [process_some_eq tc env data hdrs k henc, hclass, hhdr, hopen]
  · intro k henc hclass hopen
    simp [process_some_eq tc env data hdrs k henc, hclass, hopen]

/-- Witness for C6: an absent-header run and a failing-open run. -/
theorem process_decrypt_failure_witness :
    (headerGet none NatsServerXkeyHeader = "" ∧
      envOk.openWith dataEnc "" = none ∧
      tcEnc.process envOk dataEnc none =
        ⟨.error .decryptFailed, ⟨true, false, []⟩, tcEnc⟩) ∧
    (envNoOpen.openWith dataEnc (headerGet hdrsEnc NatsServerXkeyHeader) = none ∧
      tcEnc.process envNoOpen dataEnc hdrsEnc =
        ⟨.error .decryptFailed, ⟨true, false, []⟩, tcEnc⟩) :=
  ⟨⟨rfl, by decide,
    (process_decrypt_failure tcEnc envOk dataEnc none).1 "XLOCAL" rfl
      (by decide) rfl (by decide)⟩,
   ⟨rfl,
    (process_decrypt_failure tcEnc envNoOpen dataEnc hdrsEnc).2 "XLOCAL" rfl
      (by decide) rfl⟩⟩

/-- C7: when the authorizer resolves with a decision whose `error` field is
set, `process` still resolves with a signed response document embedding
that rejection decision — a policy rejection never rejects the promise, in
either mode. -/
theorem process_policy_rejection_resolves (tc : TokenCallout) (env : Env)
    (data : Bytes) (hdrs : Option (String → String)) :
    (∀ req cr m, tc.encryptionKey = none →
      classifyEncrypted tc.sc data = false →
      TokenCallout.decode env (tc.sc.decode data) = .ok req →
      tc.authorizer req = .ok cr → cr.error = some m →
      (tc.process env data hdrs).result =
        .ok (.plain (encodeAuthorizationResponse req.user_nkey
          req.server_id.id tc.authorizationResponseSigner cr))) ∧
    (∀ k dd req cr m, tc.encryptionKey = some k →
      classifyEncrypted tc.sc data = true →
      env.openWith data (headerGet hdrs NatsServerXkeyHeader) = some dd →
      TokenCallout.decode env (tc.sc.decode dd) = .ok req →
      req.server_id.xkey = some (headerGet hdrs NatsServerXkeyHeader) →
      tc.authorizer req = .ok cr → cr.error = some m →
      (tc.process env data hdrs).result =
        .ok (.sealedFor (encodeAuthorizationResponse req.user_nkey
          req.server_id.id tc.authorizationResponseSigner cr)
          (headerGet hdrs NatsServerXkeyHeader))) := by
  constructor
  · intro req cr m henc hclass hdec hauth _hm
    simp [process_none_eq tc env data hdrs henc, hclass, hdec, hauth]
  · intro k dd req cr m henc hclass hopen hdec hx hauth _hm
    simp [process_some_eq tc env data hdrs k henc, hclass, hopen, hdec, hx, hauth]

/-- Witness for C7: a rejecting authorizer on a fully-valid plaintext and
encrypted run. -/
theorem process_policy_rejection_resolves_witness :
    (crDenied.error = some "denied" ∧
      (tcDeny.process envOk dataPlain none).result =
        .ok (.plain (encodeAuthorizationResponse arOk.user_nkey
          arOk.server_id.id tcDeny.authorizationResponseSigner crDenied))) ∧
    ((tcDeny.process envOk dataPlain none).result.isOk = true) :=
  ⟨⟨rfl, (process_policy_rejection_resolves tcDeny envOk dataPlain none).1
      arOk crDenied "denied" rfl (by decide) (by decide) rfl rfl⟩,
   by decide⟩

/-- Counterexample to C8: an authorizer fault and a malformed-document
format error (a `jwt.decode` throw) with the same message are surfaced by
the service wiring as the very same transport reply — code 400, wrapper
"error processing request", detail "boom" — so the authorizer fault is not
surfaced as a category distinct from protocol/format errors. -/
theorem authorizer_fault_not_distinct_counterexample :
    (tcThrow.process envOk dataPlain none).result =
      .error (.authorizerFault "boom") ∧
    (tcPlain.process envBadDecode dataPlain none).result =
      .error (.decodeFailed "boom") ∧
    serviceRespondError (.authorizerFault "boom") =
      serviceRespondError (.decodeFailed "boom") :=
  ⟨by decide, by decide, rfl⟩

/-- C8 (amended): an exception thrown by the authorizer on a verified
request propagates out of `process` unchanged, as an authorizer-fault
rejection carrying the thrown message; the service wiring surfaces it the
way it surfaces every non-`ServiceError` failure — code 400, wrapper
"error processing request", and the exception's own message — distinct
from the `ServiceError(500, "bad request")` envelope rejections but not a
category of its own. -/
theorem process_authorizer_fault_propagates (tc : TokenCallout) (env : Env)
    (data : Bytes) (hdrs : Option (String → String)) :
    (∀ req m, tc.encryptionKey = none →
      classifyEncrypted tc.sc data = false →
      TokenCallout.decode env (tc.sc.decode data) = .ok req →
      tc.authorizer req = .error m →
      (tc.process env data hdrs).result = .error (.authorizerFault m) ∧
      serviceRespondError (.authorizerFault m) =
        (400, "error processing request", m)) ∧
    (∀ k dd req m, tc.encryptionKey = some k →
      classifyEncrypted tc.sc data = true →
      env.openWith data (headerGet hdrs NatsServerXkeyHeader) = some dd →
      TokenCallout.decode env (tc.sc.decode dd) = .ok req →
      req.server_id.xkey = some (headerGet hdrs NatsServerXkeyHeader) →
      tc.authorizer req = .error m →
      (tc.process env data hdrs).result = .error (.authorizerFault m) ∧
      serviceRespondError (.authorizerFault m) =
        (400, "error processing request", m)) := by
  constructor
  · intro req m henc hclass hdec hauth
    exact ⟨by simp [process_none_eq tc env data hdrs henc, hclass, hdec, hauth],
      rfl⟩
  · intro k dd req m henc hclass hopen hdec hx hauth
    exact ⟨by simp [process_some_eq tc env data hdrs k henc, hclass, hopen,
      hdec, hx, hauth], rfl⟩

/-- Witness for C8 (amended): a throwing authorizer on a concrete verified
run. -/
theorem process_authorizer_fault_propagates_witness :
    tcThrow.authorizer arOk = .error "boom" ∧
    (tcThrow.process envOk dataPlain none).result =
      .error (.authorizerFault "boom") ∧
    serviceRespondError (.authorizerFault "boom") =
      (400, "error processing request", "boom") :=
  ⟨rfl,
   ((process_authorizer_fault_propagates tcThrow envOk dataPlain none).1
     arOk "boom" rfl (by decide) (by decide) rfl).1,
   ((process_authorizer_fault_propagates tcThrow envOk dataPlain none).1
     arOk "boom" rfl (by decide) (by decide) rfl).2⟩

/-- C10: neither `decode` nor `process` validates `user_nkey`: `decode`
accepts a request with any `user_nkey` string whatsoever once the audience,
embedded-request and server-key checks pass, and `process` — in plaintext
mode and, past the xkey cross-check, in encrypted mode alike — then
resolves using that very string, verbatim, as the subject of the signed
response (the out-of-scope encode collaborator is modelled per the spec as
a total constructor of the signed document). -/
theorem user_nkey_never_validated (tc : TokenCallout) (env : Env)
    (data : Bytes) (hdrs : Option (String → String)) :
    (∀ token sid u s, env.jwtDecode s = .ok token →
      token.aud = some ExpectedAudience →
      token.nats = some ⟨sid, u⟩ →
      env.checkServerKey sid.id = .ok () →
      TokenCallout.decode env s = .ok ⟨sid, u⟩) ∧
    (∀ sid u cr, tc.encryptionKey = none →
      classifyEncrypted tc.sc data = false →
      TokenCallout.decode env (tc.sc.decode data) = .ok ⟨sid, u⟩ →
      tc.authorizer ⟨sid, u⟩ = .ok cr →
      (tc.process env data hdrs).result =
        .ok (.plain ⟨u, sid.id, tc.authorizationResponseSigner, cr⟩)) ∧
    (∀ k dd sid u cr, tc.encryptionKey = some k →
      classifyEncrypted tc.sc data = true →
      env.openWith data (headerGet hdrs NatsServerXkeyHeader) = some dd →
      TokenCallout.decode env (tc.sc.decode dd) = .ok ⟨sid, u⟩ →
      sid.xkey = some (headerGet hdrs NatsServerXkeyHeader) →
      tc.authorizer ⟨sid, u⟩ = .ok cr →
      (tc.process env data hdrs).result =
        .ok (.sealedFor ⟨u, sid.id, tc.authorizationResponseSigner, cr⟩
          (headerGet hdrs NatsServerXkeyHeader))) := by
  refine ⟨?_, ?_, ?_⟩
  · intro token sid u s h1 h2 h3 h4
    unfold TokenCallout.decode
    simp [h1, h2, h3, h4]
  · intro sid u cr henc hclass hdec hauth
    simp [process_none_eq tc env data hdrs henc, hclass, hdec, hauth,
      encodeAuthorizationResponse]
  · intro k dd sid u cr henc hclass hopen hdec hx hauth
    simp [process_some_eq tc env data hdrs k henc, hclass, hopen, hdec, hx,
      hauth, encodeAuthorizationResponse]

/-- Witness for C10: runs whose `user_nkey` is visibly not a key — one
plaintext, one encrypted past the xkey cross-check — each ending in a
resolved response with that very subject. -/
theorem user_nkey_never_validated_witness :
    TokenCallout.decode envOdd "whatever" = .ok arOdd ∧
    (tcPlain.process envOdd dataPlain none).result =
      .ok (.plain ⟨"this is *** not an nkey", sidOk.id,
        tcPlain.authorizationResponseSigner, crOk⟩) ∧
    (tcEnc.process envOdd dataEnc hdrsEnc).result =
      .ok (.sealedFor ⟨"this is *** not an nkey", sidOk.id,
        tcEnc.authorizationResponseSigner, crOk⟩
        (headerGet hdrsEnc NatsServerXkeyHeader)) :=
  ⟨(user_nkey_never_validated tcPlain envOdd dataPlain none).1
      tokenOdd sidOk
      "this is *** not an nkey" "whatever" rfl rfl rfl (by decide),
   (user_nkey_never_validated tcPlain envOdd dataPlain none).2.1 sidOk
      "this is *** not an nkey" crOk rfl (by decide) (by decide) rfl,
   (user_nkey_never_validated tcEnc envOdd dataEnc hdrsEnc).2.2 "XLOCAL"
      dataEnc sidOk "this is *** not an nkey" crOk rfl (by decide)
      (by decide) (by decide) (by decide) rfl⟩

end Callout
